import Mathlib

/-!
Verification development for the `anycubic_cloud_mqtt_proxy` add-on
(`mqtt_proxy/main.py` and `mqtt_proxy/ha_discovery.py`).

The Python code is shallowly embedded: dictionaries become association
lists, Python/JSON values become the inductive `PyVal`, MQTT publishes and
log calls become explicit effect lists, and code that can raise returns
`Except`.  Machine integers do not occur (Python ints are unbounded), so
`Int` is used directly.
-/

namespace AnycubicProxy

/-- Python/JSON values as they appear in the proxy: `None`, booleans,
integers, strings, lists and (insertion-ordered) dicts with string keys.
Floats do not occur in any code path a claim depends on. -/
inductive PyVal where
  | none
  | bool (b : Bool)
  | int (n : Int)
  | str (s : String)
  | list (xs : List PyVal)
  | dict (kvs : List (String × PyVal))

/-- Python truthiness (`bool(v)`): `None`, `False`, `0`, `""`, `[]`, `{}`
are falsy, everything else truthy. -/
def pyTruthy : PyVal → Bool
  | .none => false
  | .bool b => b
  | .int n => n != 0
  | .str s => s != ""
  | .list xs => !xs.isEmpty
  | .dict kvs => !kvs.isEmpty

mutual

/-- Python `repr` on the embedded values (enough for the ASCII data the
proxy handles; string escaping is not needed for the claims). -/
def pyRepr : PyVal → String
  | .none => "None"
  | .bool true => "True"
  | .bool false => "False"
  | .int n => toString n
  | .str s => "\x27" ++ s ++ "\x27"
  | .list xs => "[" ++ pyReprList xs ++ "]"
  | .dict kvs => "\x7b" ++ pyReprDict kvs ++ "\x7d"

/-- `repr` of list elements, comma separated. -/
def pyReprList : List PyVal → String
  | [] => ""
  | [x] => pyRepr x
  | x :: y :: xs => pyRepr x ++ ", " ++ pyReprList (y :: xs)

/-- `repr` of dict items, comma separated. -/
def pyReprDict : List (String × PyVal) → String
  | [] => ""
  | [(k, v)] => "\x27" ++ k ++ "\x27: " ++ pyRepr v
  | (k, v) :: y :: xs => "\x27" ++ k ++ "\x27: " ++ pyRepr v ++ ", " ++ pyReprDict (y :: xs)

end

/-- Python `str(v)`: identity on strings, `repr` otherwise. -/
def pyStr : PyVal → String
  | .str s => s
  | v => pyRepr v

/-- Boolean list-is-a-leading-segment test (executable in the kernel;
used to embed Python's `startswith`/`endswith`/`in` on strings, which
are exact character tests, not globs). -/
def listIsPre : List Char → List Char → Bool
  | [], _ => true
  | _ :: _, [] => false
  | a :: as, b :: bs => a == b && listIsPre as bs

/-- Boolean contiguous-sublist test. -/
def listInfix (pat l : List Char) : Bool :=
  match l with
  | [] => listIsPre pat []
  | _ :: rest => listIsPre pat l || listInfix pat rest

/-- Python `s.startswith(pat)`. -/
def strStartsWith (s pat : String) : Bool := listIsPre pat.data s.data

/-- Python `s.endswith(pat)`. -/
def strEndsWith (s pat : String) : Bool := listIsPre pat.data.reverse s.data.reverse

/-- Substring test (`pat in s` for Python strings). -/
def strContains (s pat : String) : Bool := listInfix pat.data s.data

/-- Python `s.split("/")` (the separator the bridge uses). -/
def splitSlashAux : List Char → List Char → List String
  | [], acc => [String.mk acc.reverse]
  | c :: cs, acc =>
    if c = '/' then String.mk acc.reverse :: splitSlashAux cs []
    else splitSlashAux cs (c :: acc)

/-- `topic.split("/")`. -/
def strSplitSlash (s : String) : List String := splitSlashAux s.data []

/-- Python `"/".join(parts)`. -/
def joinSlash : List String → String
  | [] => ""
  | [x] => x
  | x :: y :: xs => x ++ "/" ++ joinSlash (y :: xs)

/-- JSON escaping of the characters of a string, quote and backslash
only (the proxy's payloads are ASCII, control characters unmodelled). -/
def jsonEscapeChars : List Char → String
  | [] => ""
  | c :: cs =>
    (if c = '"' then "\\\"" else if c = '\\' then "\\\\" else String.singleton c) ++ jsonEscapeChars cs

/-- JSON string escaping. -/
def jsonEscape (s : String) : String := jsonEscapeChars s.data

mutual

/-- Python `json.dumps` with its default separators `", "` and `": "`. -/
def jsonDumps : PyVal → String
  | .none => "null"
  | .bool true => "true"
  | .bool false => "false"
  | .int n => toString n
  | .str s => "\"" ++ jsonEscape s ++ "\""
  | .list xs => "[" ++ jsonDumpsList xs ++ "]"
  | .dict kvs => "\x7b" ++ jsonDumpsDict kvs ++ "\x7d"

/-- `json.dumps` of list elements. -/
def jsonDumpsList : List PyVal → String
  | [] => ""
  | [x] => jsonDumps x
  | x :: y :: xs => jsonDumps x ++ ", " ++ jsonDumpsList (y :: xs)

/-- `json.dumps` of dict items. -/
def jsonDumpsDict : List (String × PyVal) → String
  | [] => ""
  | [(k, v)] => "\"" ++ jsonEscape k ++ "\": " ++ jsonDumps v
  | (k, v) :: y :: xs => "\"" ++ jsonEscape k ++ "\": " ++ jsonDumps v ++ ", " ++ jsonDumpsDict (y :: xs)

end

/-- Python `int(v)` on the embedded values; `.error` models the raised
`TypeError`/`ValueError`. -/
def pyInt : PyVal → Except Unit Int
  | .int n => .ok n
  | .bool b => .ok (if b then 1 else 0)
  | .str s => match s.toInt? with
    | some n => .ok n
    | Option.none => .error ()
  | _ => .error ()

/-- `d.get(k)` on a dict body: stored value, or `None` when the key is
missing (a stored `null` is returned as stored, not replaced). -/
def dictGet (kvs : List (String × PyVal)) (k : String) : PyVal :=
  match kvs.lookup k with
  | some v => v
  | Option.none => .none

/-- `v.get(k)` on an arbitrary value; non-dicts raise `AttributeError`. -/
def pyGet : PyVal → String → Except Unit PyVal
  | .dict kvs, k => .ok (dictGet kvs k)
  | _, _ => .error ()

/-- `v.get(k, d)` with an explicit default; non-dicts raise. -/
def pyGetD (v : PyVal) (k : String) (d : PyVal) : Except Unit PyVal :=
  match v with
  | .dict kvs =>
    .ok (match kvs.lookup k with
      | some x => x
      | Option.none => d)
  | _ => .error ()

/-- `k in v`: key test on dicts, substring test on strings, element test
on lists; other receivers raise `TypeError`. -/
def pyContains : PyVal → String → Except Unit Bool
  | .dict kvs, k => .ok ((kvs.lookup k).isSome)
  | .str s, k => .ok (listInfix k.data s.data)
  | .list xs, k => .ok (xs.any fun v => match v with
    | .str t => t == k
    | _ => false)
  | _, _ => .error ()

/-- `v[k]` with a string key: dict indexing (`KeyError` when missing);
strings and lists raise `TypeError` for a string subscript. -/
def pyIndex : PyVal → String → Except Unit PyVal
  | .dict kvs, k => match kvs.lookup k with
    | some v => .ok v
    | Option.none => .error ()
  | _, _ => .error ()

/-- paho-mqtt payload conversion: strings pass through, numbers and
booleans are `str()`-ed, `None` becomes an empty payload, structured
values raise `TypeError`. -/
def mqttPayloadOf : PyVal → Except Unit String
  | .str s => .ok s
  | .int n => .ok (toString n)
  | .bool b => .ok (if b then "True" else "False")
  | .none => .ok ""
  | _ => .error ()

/-- `getattr(obj, name, default)`: `Option.none` models a missing
attribute, replaced by the default. -/
def getattrD (o : Option PyVal) (d : PyVal) : PyVal := o.getD d

/-- Two-digit zero padding for `strftime` fields. -/
def pad2 (n : Int) : String := if n < 10 then "0" ++ toString n else toString n

/-- `time.strftime("%Y-%m-%dT%H:%M:%SZ", time.gmtime(t))`: UTC civil time
from a UNIX timestamp (standard days-from-civil inversion). -/
def isoZ (t : Int) : String :=
  let days := t.ediv 86400
  let secs := t.emod 86400
  let z := days + 719468
  let era := z.ediv 146097
  let doe := z.emod 146097
  let yoe := (doe - doe.ediv 1460 + doe.ediv 36524 - doe.ediv 146096).ediv 365
  let doy := doe - (365 * yoe + yoe.ediv 4 - yoe.ediv 100)
  let mp := (5 * doy + 2).ediv 153
  let d := doy - (153 * mp + 2).ediv 5 + 1
  let m := mp + (if mp < 10 then 3 else -9)
  let y := yoe + era * 400 + (if m ≤ 2 then 1 else 0)
  toString y ++ "-" ++ pad2 m ++ "-" ++ pad2 d ++ "T" ++
    pad2 (secs.ediv 3600) ++ ":" ++ pad2 ((secs.emod 3600).ediv 60) ++ ":" ++ pad2 (secs.emod 60) ++ "Z"

/-! ## Data model of `ha_discovery.py`

`HADiscoveryPublisher` holds the local-MQTT client, the local base topic,
the registry dict `printers_by_key`, the cloud printer objects
`printer_objects_by_key`, and the in-memory cache `_cache`.  The local
client is modelled as connected (in `run()` the publisher is constructed
only after `_ensure_local_client()`); `LOG.info`/`LOG.debug` calls that
carry no behaviour are not recorded as effects except where a claim
mentions them. -/

/-- One entry of `printers_by_key`, as built by `load_printers`:
`id`, `name`, `machine_type`, `key`, `model`, `status`.  `key` is a
string (printers without a truthy key are skipped at load). -/
structure PrinterInfo where
  id : PyVal
  name : PyVal
  machine_type : PyVal
  key : String
  model : PyVal
  status : PyVal

/-- `drying_status` sub-object of a multi-color box; each field is read
with `getattr(..., default)`, so `Option.none` models a missing attribute. -/
structure DryingStatus where
  is_drying : Option PyVal
  raw_status_code : Option PyVal
  target_temperature : Option PyVal
  total_duration : Option PyVal
  remaining_time : Option PyVal

/-- One `multi_color_box` element of a cloud printer object.  Fields read
by plain attribute access are plain `PyVal` (the library class always
defines them); fields read through `getattr` with a default are `Option`.
`drying_status := Option.none` covers both a `None` value and a raising
property, which the source treats identically (no `"drying"` key). -/
structure Mcb where
  box_id : PyVal
  is_connected : PyVal
  loaded_slot : Option PyVal
  total_slots : PyVal
  spool_info_object : PyVal
  current_temperature : PyVal
  current_humidity : Option PyVal
  auto_feed : PyVal
  drying_status : Option DryingStatus

/-- `latest_project` of a printer object; `print_current_layer` is a
property whose raising is folded into `Option.none` (the source maps an
exception to `None`). -/
structure Project where
  print_current_layer : Option PyVal

/-- A cloud printer object as read by `ha_discovery.py`; every attribute
is probed with `getattr(..., default)`, so each is an `Option PyVal`
(`Option.none` = attribute missing). -/
structure PrinterObj where
  current_status : Option PyVal
  printer_online : Option PyVal
  latest_project_progress_percentage : Option PyVal
  latest_project_print_time_elapsed_minutes : Option PyVal
  latest_project_print_time_remaining_minutes : Option PyVal
  latest_project_print_total_layers : Option PyVal
  latest_project : Option Project
  latest_project_print_speed_mode_string : Option PyVal
  latest_project_print_speed_pct : Option PyVal
  latest_project_z_thick : Option PyVal
  latest_project_print_status_message : Option PyVal
  latest_project_image_url : Option PyVal
  latest_project_name : Option PyVal
  multi_color_box : Option (List Mcb)

/-- The in-memory `_cache` dict: device key to an arbitrary JSON value
(`load_cache` can put any JSON shape here). -/
abbrev Cache := List (String × PyVal)

/-- The publisher state: `local_prefix` (named `localRoot` here), the two
registry dicts and the cache. -/
structure HAState where
  localRoot : String
  printers_by_key : List (String × PrinterInfo)
  printer_objects_by_key : List (String × PrinterObj)
  cache : Cache

/-- The local-bus topics the publisher writes, in structured form;
`renderTopic` recovers the exact strings of the `_ha_*_topic` helpers.
`humanIdx` is the 1-based Ace index (`box_index + 1`). -/
inductive Topic where
  | printerStatus (key : String)
  | printerOnline (key : String)
  | job (key sid : String)
  | aceState (key : String) (humanIdx : Nat)
  | aceAttrs (key : String) (humanIdx : Nat)
  | discoveryStatus (key : String)
  | discoveryOnline (key : String)
  | discoveryAce (key : String) (humanIdx : Nat)
  | discoveryJob (key sid : String)
deriving DecidableEq

/-- The exact topic strings built by the `_ha_*_topic` helpers. -/
def renderTopic (localRoot : String) : Topic → String
  | .printerStatus k => localRoot ++ "/printers/" ++ k ++ "/status"
  | .printerOnline k => localRoot ++ "/printers/" ++ k ++ "/online"
  | .job k sid => localRoot ++ "/printers/" ++ k ++ "/job/" ++ sid
  | .aceState k h => localRoot ++ "/printers/" ++ k ++ "/ace_pro/" ++ toString h ++ "/state"
  | .aceAttrs k h => localRoot ++ "/printers/" ++ k ++ "/ace_pro/" ++ toString h ++ "/attrs"
  | .discoveryStatus k => "homeassistant/sensor/anycubic_" ++ k ++ "_status/config"
  | .discoveryOnline k => "homeassistant/binary_sensor/anycubic_" ++ k ++ "_online/config"
  | .discoveryAce k h => "homeassistant/sensor/anycubic_" ++ k ++ "_ace_pro_" ++ toString h ++ "_spools/config"
  | .discoveryJob k sid => "homeassistant/sensor/anycubic_" ++ k ++ "_job_" ++ sid ++ "/config"

/-- Observable effects of the publisher: a retained publish on the local
bus, the `save_cache()` file write at the end of `publish_all_ace`, and
the log calls a claim depends on. -/
inductive HAEffect where
  | pub (topic : Topic) (payload : String)
  | saveCacheMark
  | logError (tag : String)
  | logWarn (tag : String)
  | logDebugSkipAce
deriving DecidableEq

/-- Python dict assignment `d[k] = v`: replace in place when the key
exists (insertion order kept), append otherwise. -/
def dictSet (l : List (String × PyVal)) (k : String) (v : PyVal) : List (String × PyVal) :=
  if l.any (fun p => p.1 == k) then l.map (fun p => if p.1 = k then (k, v) else p)
  else l ++ [(k, v)]

/-! ## Operations of `ha_discovery.py` -/

/-- ETA of `_collect_job_values`: `int(time.time()) + int(remaining)*60`
formatted as an ISO-8601 UTC string; a `None` or unconvertible remaining
value (the `except` arm) yields `None`. -/
def eta_iso_of (now : Int) (remaining : PyVal) : PyVal :=
  match remaining with
  | .none => .none
  | v =>
    match pyInt v with
    | .ok n => .str (isoZ (now + n * 60))
    | .error _ => .none

/-- `_collect_job_values`: the insertion-ordered values dict; empty when
the printer object is missing. -/
def collect_job_values (s : HAState) (now : Int) (key : String) : List (String × PyVal) :=
  match s.printer_objects_by_key.lookup key with
  | Option.none => []
  | some pobj =>
    let current_layer := match pobj.latest_project with
      | Option.none => PyVal.none
      | some lp => getattrD lp.print_current_layer .none
    let remaining := getattrD pobj.latest_project_print_time_remaining_minutes .none
    [("progress", getattrD pobj.latest_project_progress_percentage .none),
     ("elapsed_min", getattrD pobj.latest_project_print_time_elapsed_minutes .none),
     ("remaining_min", remaining),
     ("total_layers", getattrD pobj.latest_project_print_total_layers .none),
     ("current_layer", current_layer),
     ("speed_mode", getattrD pobj.latest_project_print_speed_mode_string .none),
     ("speed_pct", getattrD pobj.latest_project_print_speed_pct .none),
     ("z_thick", getattrD pobj.latest_project_z_thick .none),
     ("status", getattrD pobj.latest_project_print_status_message .none),
     ("preview_url", getattrD pobj.latest_project_image_url .none),
     ("eta", eta_iso_of now remaining)]

/-- Payload encoding of `_publish_job_sensors`: `""` for `None`,
`json.dumps` for dict/list, `str` otherwise. -/
def job_payload : PyVal → String
  | .none => ""
  | .dict kvs => jsonDumps (.dict kvs)
  | .list xs => jsonDumps (.list xs)
  | v => pyStr v

/-- `_publish_job_sensors`: one retained publish per collected value. -/
def publish_job_sensors (s : HAState) (now : Int) (key : String) : List HAEffect :=
  (collect_job_values s now key).map fun sv => HAEffect.pub (.job key sv.1) (job_payload sv.2)

/-- `_publish_printer_status`: registry status (default `"unknown"`),
published retained; a publish failure is logged as an error. -/
def publish_printer_status (s : HAState) (key : String) : List HAEffect :=
  let status := match s.printers_by_key.lookup key with
    | some info => info.status
    | Option.none => .str "unknown"
  match mqttPayloadOf status with
  | .ok p => [.pub (.printerStatus key) p]
  | .error _ => [.logError "publish status"]

/-- `_publish_printer_online`: `"unknown"` without a printer object, else
truthiness of `printer_online` (default `False`). -/
def publish_printer_online (s : HAState) (key : String) : List HAEffect :=
  let ov := match s.printer_objects_by_key.lookup key with
    | Option.none => "unknown"
    | some pobj => if pyTruthy (getattrD pobj.printer_online (.bool false)) then "online" else "offline"
  [.pub (.printerOnline key) ov]

/-- `_collect_printer_job_attrs`: the aggregate job-attribute dict, with
`eta_timestamp` recomputed from the wall clock at call time. -/
def collect_printer_job_attrs (s : HAState) (now : Int) (key : String) : Option PyVal :=
  match s.printer_objects_by_key.lookup key with
  | Option.none => Option.none
  | some pobj =>
    let current_layer := match pobj.latest_project with
      | Option.none => PyVal.none
      | some lp => getattrD lp.print_current_layer .none
    let remaining := getattrD pobj.latest_project_print_time_remaining_minutes .none
    let eta_ts : PyVal := match remaining with
      | .none => .none
      | v =>
        match pyInt v with
        | .ok n => .int (now + n * 60)
        | .error _ => .none
    some (.dict [("project_name", getattrD pobj.latest_project_name .none),
      ("job_status", getattrD pobj.latest_project_print_status_message .none),
      ("progress_pct", getattrD pobj.latest_project_progress_percentage .none),
      ("current_layer", current_layer),
      ("total_layers", getattrD pobj.latest_project_print_total_layers .none),
      ("elapsed_min", getattrD pobj.latest_project_print_time_elapsed_minutes .none),
      ("remaining_min", remaining),
      ("eta_timestamp", eta_ts),
      ("speed_mode", getattrD pobj.latest_project_print_speed_mode_string .none),
      ("speed_pct", getattrD pobj.latest_project_print_speed_pct .none),
      ("z_thick", getattrD pobj.latest_project_z_thick .none),
      ("image_url", getattrD pobj.latest_project_image_url .none)])

/-- The `eta_timestamp` field of the collected job attributes. -/
def eta_timestamp_of (s : HAState) (now : Int) (key : String) : Option PyVal :=
  match collect_printer_job_attrs s now key with
  | some (.dict kvs) => kvs.lookup "eta_timestamp"
  | _ => Option.none

/-- `_collect_ace_attrs`: `None` without a printer object, without boxes,
or past the end of the box list; otherwise the slot-attribute dict
(`spool_info or []`, `drying` only when a drying status exists). -/
def collect_ace_attrs (s : HAState) (key : String) (idx : Nat) : Option PyVal :=
  match s.printer_objects_by_key.lookup key with
  | Option.none => Option.none
  | some pobj =>
    match pobj.multi_color_box with
    | Option.none => Option.none
    | some mcbs =>
      match mcbs.get? idx with
      | Option.none => Option.none
      | some mcb =>
        some (.dict ([("box_id", mcb.box_id),
          ("is_connected", mcb.is_connected),
          ("loaded_slot", getattrD mcb.loaded_slot .none),
          ("slots_count", mcb.total_slots),
          ("spool_info", if pyTruthy mcb.spool_info_object then mcb.spool_info_object else .list []),
          ("temperature", mcb.current_temperature),
          ("humidity", getattrD mcb.current_humidity (.int 0)),
          ("auto_feed", mcb.auto_feed)] ++
          (match mcb.drying_status with
           | some ds => [("drying", .dict [("on", getattrD ds.is_drying (.bool false)),
               ("status_code", getattrD ds.raw_status_code .none),
               ("target_temperature", getattrD ds.target_temperature (.int 0)),
               ("total_duration", getattrD ds.total_duration (.int 0)),
               ("remaining_time", getattrD ds.remaining_time (.int 0))])]
           | Option.none => [])))

/-- The `state` value of `_publish_ace_state_and_attrs`: `"active"` iff
the indexed box exists and its `is_connected` is truthy. -/
def ace_state_of (s : HAState) (key : String) (idx : Nat) : String :=
  match s.printer_objects_by_key.lookup key with
  | Option.none => "inactive"
  | some pobj =>
    match pobj.multi_color_box with
    | Option.none => "inactive"
    | some mcbs =>
      if mcbs.isEmpty then "inactive"
      else
        match mcbs.get? idx with
        | some mcb => if pyTruthy mcb.is_connected then "active" else "inactive"
        | Option.none => "inactive"

/-- The per-slot cache record written by `_publish_ace_state_and_attrs`:
`{"state": state, "attrs": attrs or {}}`. -/
def ace_cache_entry (state : String) (attrs : Option PyVal) : PyVal :=
  let a := match attrs with
    | some a => a
    | Option.none => PyVal.none
  .dict [("state", .str state), ("attrs", if pyTruthy a then a else .dict [])]

/-- The cache mutation of `_publish_ace_state_and_attrs`:
`setdefault(key, {})`, `setdefault("ace", {})`, then
`cache[key]["ace"][str(idx)] = entry`; a non-dict on the path raises. -/
def cache_update_ace (cache : Cache) (key : String) (idx : Nat) (entry : PyVal) : Except Unit Cache :=
  let c1 : Cache := if cache.any (fun p => p.1 == key) then cache else cache ++ [(key, .dict [])]
  match c1.lookup key with
  | Option.none => .error ()
  | some devVal =>
    match devVal with
    | .dict dk =>
      let d1 := if dk.any (fun p => p.1 == "ace") then dk else dk ++ [("ace", .dict [])]
      match d1.lookup "ace" with
      | Option.none => .error ()
      | some aceVal =>
        match aceVal with
        | .dict ak =>
          let a1 := dictSet ak (toString idx) entry
          let d2 := dictSet d1 "ace" (.dict a1)
          .ok (dictSet c1 key (.dict d2))
        | _ => .error ()
    | _ => .error ()

/-- `_publish_ace_state_and_attrs`: publish the state topic, the attrs
topic only when attrs were collected, then write the cache entry; a
failing cache write logs an error and leaves the cache unchanged. -/
def publish_ace_state_and_attrs (s : HAState) (key : String) (idx : Nat) : HAState × List HAEffect :=
  let attrs := collect_ace_attrs s key idx
  let state := ace_state_of s key idx
  let pubs := [HAEffect.pub (.aceState key (idx + 1)) state] ++
    (match attrs with
     | some a => [HAEffect.pub (.aceAttrs key (idx + 1)) (jsonDumps a)]
     | Option.none => [])
  match cache_update_ace s.cache key idx (ace_cache_entry state attrs) with
  | .ok c => ({ s with cache := c }, pubs)
  | .error _ => (s, pubs ++ [HAEffect.logError "ace publish"])

/-- The per-device loop of `publish_all_ace` (slots 0 and 1 for each key,
threading the cache through). -/
def publish_ace_for_keys : HAState → List String → HAState × List HAEffect
  | s, [] => (s, [])
  | s, k :: ks =>
    let r0 := publish_ace_state_and_attrs s k 0
    let r1 := publish_ace_state_and_attrs r0.1 k 1
    let rest := publish_ace_for_keys r1.1 ks
    (rest.1, r0.2 ++ r1.2 ++ rest.2)

/-- `publish_all_ace`: both slots of every registered device, then
`save_cache()`. -/
def publish_all_ace (s : HAState) : HAState × List HAEffect :=
  let r := publish_ace_for_keys s (s.printers_by_key.map Prod.fst)
  (r.1, r.2 ++ [HAEffect.saveCacheMark])

/-- One slot of `publish_ace_from_cache`: skip when `str(idx)` is not in
the per-device ace dict, else publish the cached state and, when the
cached attrs are not `None`, the attrs.  An exception (`.error`) carries
the publishes already made for this slot (none: all reads precede the
publishes). -/
def replay_slot (aceCache : PyVal) (key : String) (idx : Nat) : Except (List HAEffect) (List HAEffect) :=
  match pyContains aceCache (toString idx) with
  | .error _ => .error []
  | .ok false => .ok []
  | .ok true =>
    match pyIndex aceCache (toString idx) with
    | .error _ => .error []
    | .ok cached =>
      match pyGetD cached "state" (.str "unknown") with
      | .error _ => .error []
      | .ok stateV =>
        match pyGet cached "attrs" with
        | .error _ => .error []
        | .ok attrsV =>
          match mqttPayloadOf stateV with
          | .error _ => .error []
          | .ok sp =>
            match attrsV with
            | .none => .ok [HAEffect.pub (.aceState key (idx + 1)) sp]
            | a => .ok [HAEffect.pub (.aceState key (idx + 1)) sp,
                        HAEffect.pub (.aceAttrs key (idx + 1)) (jsonDumps a)]

/-- One device of `publish_ace_from_cache`:
`ace_cache = (cache.get(key) or {}).get("ace") or {}` then both slots;
an error carries the effects already produced. -/
def replay_device (cache : Cache) (key : String) : Except (List HAEffect) (List HAEffect) :=
  let devRaw := match cache.lookup key with
    | some v => v
    | Option.none => PyVal.none
  let devV := if pyTruthy devRaw then devRaw else .dict []
  match pyGet devV "ace" with
  | .error _ => .error []
  | .ok aceRaw =>
    let aceCache := if pyTruthy aceRaw then aceRaw else .dict []
    match replay_slot aceCache key 0 with
    | .error e0 => .error e0
    | .ok e0 =>
      match replay_slot aceCache key 1 with
      | .error e1 => .error (e0 ++ e1)
      | .ok e1 => .ok (e0 ++ e1)

/-- The device loop of `publish_ace_from_cache`; the single `try` wraps
the whole loop, so the first exception stops the replay with a warning,
keeping the publishes already made. -/
def replay_go (cache : Cache) : List String → List HAEffect → List HAEffect
  | [], acc => acc
  | k :: ks, acc =>
    match replay_device cache k with
    | .ok e => replay_go cache ks (acc ++ e)
    | .error e => acc ++ e ++ [HAEffect.logWarn "ace cache replay"]

/-- `publish_ace_from_cache` over all registered devices. -/
def publish_ace_from_cache (s : HAState) : List HAEffect :=
  replay_go s.cache (s.printers_by_key.map Prod.fst) []

/-- The registry refresh at the top of `update_from_cloud`: for every
registry key with a printer object, `status := getattr(pobj,
"current_status", "unknown")`; keys without an object are untouched
(the `KeyError` is swallowed). -/
def refresh_statuses (s : HAState) : HAState :=
  { s with printers_by_key := s.printers_by_key.map fun kv =>
      match s.printer_objects_by_key.lookup kv.1 with
      | some pobj => (kv.1, { kv.2 with status := getattrD pobj.current_status (.str "unknown") })
      | Option.none => kv }

/-- `publish_all_printer_status` over the registry keys. -/
def publish_all_printer_status (s : HAState) : List HAEffect :=
  ((s.printers_by_key.map Prod.fst).map (publish_printer_status s)).flatten

/-- `publish_all_printer_online` over the registry keys. -/
def publish_all_printer_online (s : HAState) : List HAEffect :=
  ((s.printers_by_key.map Prod.fst).map (publish_printer_online s)).flatten

/-- `publish_all_job_sensors` over the registry keys. -/
def publish_all_job_sensors (s : HAState) (now : Int) : List HAEffect :=
  ((s.printers_by_key.map Prod.fst).map (publish_job_sensors s now)).flatten

/-- `update_from_cloud(msg_type, action, endpoint)`: refresh statuses,
always publish status and online, publish job sensors only for
`print`/`report`-or-no-endpoint, and publish the Ace sensors unless
`msg_type == "multiColorBox" and action != "getInfo"` (the partial-frame
guard logs a debug line and skips both the Ace publishes and the cache
save). -/
def update_from_cloud (s : HAState) (now : Int) (msg_type action endpoint : Option String) : HAState × List HAEffect :=
  let s1 := refresh_statuses s
  let e1 := publish_all_printer_status s1
  let e2 := publish_all_printer_online s1
  let e3 := if msg_type = some "print" ∧ (endpoint = Option.none ∨ endpoint = some "report")
            then publish_all_job_sensors s1 now else []
  if msg_type = some "multiColorBox" ∧ action ≠ some "getInfo" then
    (s1, e1 ++ e2 ++ e3 ++ [HAEffect.logDebugSkipAce])
  else
    let r := publish_all_ace s1
    (r.1, e1 ++ e2 ++ e3 ++ r.2)

/-! ## Discovery descriptor generation (`publish_ha_discovery`) -/

/-- The name fallback `pinfo.get("name") or pinfo.get("model") or
f"Anycubic \x7bkey\x7d"`. -/
def name_of (info : PrinterInfo) (k : String) : PyVal :=
  if pyTruthy info.name then info.name
  else if pyTruthy info.model then info.model
  else .str ("Anycubic " ++ k)

/-- The shared `device` block of every discovery payload. -/
def device_block (info : PrinterInfo) (k : String) : PyVal :=
  .dict [("identifiers", .list [.str ("anycubic_" ++ k)]),
         ("name", name_of info k),
         ("manufacturer", .str "Anycubic"),
         ("model", if pyTruthy info.model then info.model else .str "Printer")]

/-- Discovery payload of the status sensor (uses `str(pinfo.get("key"))`). -/
def status_discovery_payload (localRoot : String) (info : PrinterInfo) : PyVal :=
  .dict [("name", .str (pyStr (name_of info info.key) ++ " Status")),
         ("unique_id", .str ("anycubic_" ++ info.key ++ "_status")),
         ("state_topic", .str (renderTopic localRoot (.printerStatus info.key))),
         ("icon", .str "mdi:printer-3d"),
         ("device", device_block info info.key)]

/-- Discovery payload of the online binary sensor. -/
def online_discovery_payload (localRoot : String) (info : PrinterInfo) : PyVal :=
  .dict [("name", .str (pyStr (name_of info info.key) ++ " Online")),
         ("unique_id", .str ("anycubic_" ++ info.key ++ "_online")),
         ("state_topic", .str (renderTopic localRoot (.printerOnline info.key))),
         ("device_class", .str "connectivity"),
         ("payload_on", .str "online"),
         ("payload_off", .str "offline"),
         ("device", device_block info info.key)]

/-- Discovery payload of one Ace Pro spools sensor (iteration key `k`). -/
def ace_discovery_payload (localRoot k : String) (info : PrinterInfo) (idx : Nat) : PyVal :=
  .dict [("name", .str (pyStr (name_of info k) ++ " Ace Pro " ++ toString (idx + 1) ++ " Spools")),
         ("unique_id", .str ("anycubic_" ++ k ++ "_ace_pro_" ++ toString (idx + 1) ++ "_spools")),
         ("state_topic", .str (renderTopic localRoot (.aceState k (idx + 1)))),
         ("json_attributes_topic", .str (renderTopic localRoot (.aceAttrs k (idx + 1)))),
         ("icon", .str "mdi:palette"),
         ("device", device_block info k)]

/-- One entry of the fixed `job_defs` table. -/
structure JobDef where
  id : String
  name : String
  unit : Option String
  device_class : Option String
  icon : String

/-- The fixed 11-sensor `job_defs` table. -/
def job_defs (nameS : String) : List JobDef :=
  [⟨"status", nameS ++ " Job Status", Option.none, Option.none, "mdi:printer-3d"⟩,
   ⟨"progress", nameS ++ " Job Progress", some "%", Option.none, "mdi:progress-percent"⟩,
   ⟨"current_layer", nameS ++ " Current Layer", Option.none, Option.none, "mdi:layers"⟩,
   ⟨"total_layers", nameS ++ " Total Layers", Option.none, Option.none, "mdi:layers-outline"⟩,
   ⟨"elapsed_min", nameS ++ " Elapsed (min)", some "min", Option.none, "mdi:timer"⟩,
   ⟨"remaining_min", nameS ++ " Remaining (min)", some "min", Option.none, "mdi:timer-sand"⟩,
   ⟨"eta", nameS ++ " ETA", Option.none, some "timestamp", "mdi:calendar-clock"⟩,
   ⟨"speed_mode", nameS ++ " Speed Mode", Option.none, Option.none, "mdi:speedometer"⟩,
   ⟨"speed_pct", nameS ++ " Speed (%)", some "%", Option.none, "mdi:speedometer"⟩,
   ⟨"z_thick", nameS ++ " Layer Thickness (mm)", some "mm", Option.none, "mdi:arrow-collapse-vertical"⟩,
   ⟨"preview_url", nameS ++ " Preview URL", Option.none, Option.none, "mdi:image"⟩]

/-- Discovery payload of one job sensor: the base keys, then
`unit_of_measurement` and `device_class` when present in the def. -/
def job_discovery_payload (localRoot k : String) (device : PyVal) (jd : JobDef) : PyVal :=
  .dict ([("name", .str jd.name),
          ("unique_id", .str ("anycubic_" ++ k ++ "_job_" ++ jd.id)),
          ("state_topic", .str (renderTopic localRoot (.job k jd.id))),
          ("icon", .str jd.icon),
          ("device", device)] ++
         (match jd.unit with
          | some u => [("unit_of_measurement", .str u)]
          | Option.none => []) ++
         (match jd.device_class with
          | some dc => [("device_class", .str dc)]
          | Option.none => []))

/-- All 15 discovery descriptors of one device: status and online (keyed
by `str(pinfo["key"])`), two Ace Pro sensors and eleven job sensors
(keyed by the registry iteration key `k`). -/
def discovery_payloads (localRoot k : String) (info : PrinterInfo) : List (Topic × PyVal) :=
  [(.discoveryStatus info.key, status_discovery_payload localRoot info),
   (.discoveryOnline info.key, online_discovery_payload localRoot info),
   (.discoveryAce k 1, ace_discovery_payload localRoot k info 0),
   (.discoveryAce k 2, ace_discovery_payload localRoot k info 1)] ++
  (job_defs (pyStr (name_of info k))).map
    (fun jd => (.discoveryJob k jd.id, job_discovery_payload localRoot k (device_block info k) jd))

/-- `publish_ha_discovery` as a function of the base topic and registry
only (the function reads no other state). -/
def discovery_effects (localRoot : String) (reg : List (String × PrinterInfo)) : List HAEffect :=
  (reg.map fun kv => (discovery_payloads localRoot kv.1 kv.2).map
    fun tp => HAEffect.pub tp.1 (jsonDumps tp.2)).flatten

/-- `publish_ha_discovery` on the publisher state. -/
def publish_ha_discovery (s : HAState) : List HAEffect :=
  discovery_effects s.localRoot s.printers_by_key

/-- A dict field of a payload (for stating properties of descriptors). -/
def payload_field (v : PyVal) (f : String) : Option PyVal :=
  match v with
  | .dict kvs => kvs.lookup f
  | _ => Option.none

/-- The 11 fixed job metric ids, in `job_defs` order. -/
def job_ids : List String :=
  ["status", "progress", "current_layer", "total_layers", "elapsed_min", "remaining_min",
   "eta", "speed_mode", "speed_pct", "z_thick", "preview_url"]

/-- The unique ids of one device's 15 descriptors, a function of the two
key strings only. -/
def discovery_unique_ids (k keyField : String) : List String :=
  ["anycubic_" ++ keyField ++ "_status", "anycubic_" ++ keyField ++ "_online",
   "anycubic_" ++ k ++ "_ace_pro_" ++ toString 1 ++ "_spools",
   "anycubic_" ++ k ++ "_ace_pro_" ++ toString 2 ++ "_spools"] ++
  job_ids.map (fun jid => "anycubic_" ++ k ++ "_job_" ++ jid)

/-! ## `save_cache` as a filesystem-operation trace (C9) -/

/-- Filesystem operations relevant to `save_cache`. -/
inductive FsOp where
  | makedirs (dir : String)
  | writeFile (path : String) (contents : String)
  | rename (src dst : String)
deriving DecidableEq

/-- `os.path.dirname` (for the paths the proxy uses). -/
def dirname (p : String) : String :=
  let parts := p.splitOn "/"
  if parts.length ≤ 1 then ""
  else
    let d := String.intercalate "/" parts.dropLast
    if d = "" then "/" else d

/-- The cache dict as a JSON value (what `json.dump(self._cache, f)`
serialises). -/
def cache_to_pyval (c : Cache) : PyVal := .dict c

/-- `save_cache`: `os.makedirs(dirname, exist_ok=True)` followed by a
direct `open(path, "w")` + `json.dump` — the trace the code performs. -/
def save_cache_ops (cachePath : String) (c : Cache) : List FsOp :=
  [FsOp.makedirs (dirname cachePath), FsOp.writeFile cachePath (jsonDumps (cache_to_pyval c))]

/-- Modelled from the spec: "the file itself should be replaced
atomically (write-to-temp + rename)" — a trace ends with a write to a
temporary path followed by a rename of that path onto the target. -/
def IsAtomicReplace (ops : List FsOp) (target : String) : Prop :=
  ∃ pre tmp contents, tmp ≠ target ∧
    ops = pre ++ [FsOp.writeFile tmp contents, FsOp.rename tmp target]

/-! ## The topic bridge of `main.py` (`ProxyService._on_local_message`) -/

/-- An incoming local-bus message payload: the decoded UTF-8 text and the
result of `json.loads` on it (`Option.none` models the library raising
on unparsable input; the parser itself is external to the repo). -/
structure RawPayload where
  text : String
  parsed : Option PyVal

/-- The service state `_on_local_message` reads: the configured
allow-list prefix (`allow_publish_prefix`, named `allowedRoot` here), the
registry, and whether `api._mqtt_client` is connected (non-`None`). -/
structure ProxyState where
  allowedRoot : String
  printers_by_key : List (String × PrinterInfo)
  cloud_connected : Bool

/-- Effects of `_on_local_message`: a publish on the outbound cloud
channel, and the log calls, tagged by call site. -/
inductive MainEffect where
  | cloudPublish (topic : String) (payload : String)
  | logInfo (tag : String)
  | logWarning (tag : String)
  | logError (tag : String)
  | logDebug (tag : String)
deriving DecidableEq

/-- `json.dumps(payload) if isinstance(payload, dict) else str(payload)`
— the outbound payload encoding used by both bridge branches. -/
def bridge_encode : PyVal → String
  | .dict kvs => jsonDumps (.dict kvs)
  | v => pyStr v

/-- The hard-coded prefix of the structured-publish topic
(`main.py:344`); it equals the default of `allow_publish_prefix` but is
not read from the configuration. -/
def hardwiredCloudRoot : String := "anycubic/anycubicCloud/v1/printer/public/"

/-- `str(data.get("topic") or "")` — the cloud topic of a raw-forward
envelope. -/
def raw_cloud_topic (kvs : List (String × PyVal)) : String :=
  pyStr (if pyTruthy (dictGet kvs "topic") then dictGet kvs "topic" else .str "")

/-- `payload_obj` of the structured branch: the parsed JSON, or the raw
string when `json.loads` raises. -/
def structured_payload_obj (msg : RawPayload) : PyVal :=
  match msg.parsed with
  | some v => v
  | Option.none => .str msg.text

/-- The full cloud topic built by the structured branch:
`"anycubic/anycubicCloud/v1/printer/public/" + machine_type + "/" + key
+ "/" + endpoint`. -/
def structured_full_topic (info : PrinterInfo) (endpoint : String) : String :=
  hardwiredCloudRoot ++ pyStr info.machine_type ++ "/" ++ info.key ++ "/" ++ endpoint

/-- The body of `_on_local_message` inside its outer `try`; `.error`
models an exception escaping to the outer handler (which then logs one
error). -/
def on_local_message_core (s : ProxyState) (topic : String) (msg : RawPayload) : Except Unit (List MainEffect) :=
  if strEndsWith topic "/raw" then
    match msg.parsed with
    | Option.none => .error ()
    | some data =>
      match data with
      | .dict kvs =>
        let cloud_topic := raw_cloud_topic kvs
        let payload := dictGet kvs "payload"
        if ¬ strStartsWith cloud_topic s.allowedRoot then
          .ok [.logWarning "raw topic outside allowed root"]
        else if s.cloud_connected then
          .ok [.logInfo "forward raw", .cloudPublish cloud_topic (bridge_encode payload)]
        else
          .ok [.logError "cloud client not connected"]
      | _ => .error ()
  else if strContains topic "/to_cloud/publish/" then
    let parts := strSplitSlash topic
    match parts.findIdx? (fun p => p == "publish") with
    | Option.none => .ok [.logError "invalid publish topic"]
    | some idx =>
      match parts[idx + 1]? with
      | Option.none => .ok [.logError "invalid publish topic"]
      | some printer_key =>
        let endpoint := joinSlash (parts.drop (idx + 2))
        match s.printers_by_key.lookup printer_key with
        | Option.none => .ok [.logError "unknown printer key"]
        | some info =>
          let full_topic := structured_full_topic info endpoint
          if ¬ strStartsWith full_topic s.allowedRoot then
            .ok [.logWarning "endpoint outside allowed root"]
          else if s.cloud_connected then
            .ok [.logInfo "forward publish",
                 .cloudPublish full_topic (bridge_encode (structured_payload_obj msg))]
          else
            .ok [.logError "cloud client not connected"]
  else
    .ok [.logDebug "unhandled local topic"]

/-- `_on_local_message` with the outer exception handler: an escaping
exception is logged as a single error and the callback returns (the
process keeps running — the function is total). -/
def on_local_message (s : ProxyState) (topic : String) (msg : RawPayload) : List MainEffect :=
  match on_local_message_core s topic msg with
  | .ok e => e
  | .error _ => [.logError "error processing local message"]

/-- True on the cloud-publish effect. -/
def isCloudPublishB : MainEffect → Bool
  | .cloudPublish _ _ => true
  | _ => false

/-- True on the error-log effect. -/
def isErrorLogB : MainEffect → Bool
  | .logError _ => true
  | _ => false

/-! ## The getInfo retry scheduler (`_on_mqtt_subscribed`,
`_schedule_ace_getinfo_retry`) -/

/-- One scheduled `threading.Timer`: its delay and the printer it will
probe. -/
structure TimerSpec where
  delaySeconds : Nat
  printerKey : String
deriving DecidableEq

/-- `_schedule_ace_getinfo_retry(delay)`: one timer per registered
printer object. -/
def schedule_ace_getinfo_retry (objs : List (String × PrinterObj)) (delay : Nat) : List TimerSpec :=
  objs.map fun kp => ⟨delay, kp.1⟩

/-- `_on_mqtt_subscribed`: schedule the 8-second and then the 25-second
round of retries. -/
def on_mqtt_subscribed (objs : List (String × PrinterObj)) : List TimerSpec :=
  schedule_ace_getinfo_retry objs 8 ++ schedule_ace_getinfo_retry objs 25

/-- Modelled from the spec: a probe is the "request full accessory
telemetry" (multi-color-box `getInfo`) order sent on the outbound cloud
channel for one printer; the send itself lives in the external
`anycubic_cloud_api` library. -/
structure Probe where
  getInfoKey : String
deriving DecidableEq

/-- Modelled from the spec and `threading.Timer` semantics: a one-shot
timer either fires (once) or is cancelled before firing. -/
inductive TimerOutcome where
  | fires
  | cancelled
deriving DecidableEq

/-- The probes produced by one timer under an outcome: a fired one-shot
timer sends exactly one getInfo probe for its printer, a cancelled timer
sends none. -/
def timer_probes (t : TimerSpec) (o : TimerOutcome) : List Probe :=
  match o with
  | .fires => [⟨t.printerKey⟩]
  | .cancelled => []

/-- Run a batch of scheduled timers against per-timer outcomes (position
`i` of `ocs` decides timer `i`). -/
def run_scheduled (ts : List TimerSpec) (ocs : List TimerOutcome) : List Probe :=
  ((ts.zip ocs).map fun p => timer_probes p.1 p.2).flatten

/-! ## Concrete fixtures used by witnesses and counterexamples -/

/-- A printer object with every probed attribute absent (no job, no
multi-color boxes). -/
def samplePrinterObj : PrinterObj :=
  ⟨Option.none, Option.none, Option.none, Option.none, Option.none, Option.none, Option.none,
   Option.none, Option.none, Option.none, Option.none, Option.none, Option.none, Option.none⟩

/-- A printer object whose latest job reports 42 remaining minutes. -/
def samplePrinterObjJob : PrinterObj :=
  ⟨some (.str "printing"), some (.bool true), some (.int 55), some (.int 10), some (.int 42),
   some (.int 100), some ⟨some (.int 57)⟩, some (.str "normal"), some (.int 100),
   some (.int 1), some (.str "Printing"), Option.none, some (.str "benchy"), Option.none⟩

/-- A sample registry entry for device key `"k"` with machine type `"m"`. -/
def sampleInfo : PrinterInfo := ⟨.none, .str "K", .str "m", "k", .none, .str "printing"⟩

/-! ## C9 — `save_cache` does not replace the file atomically -/

/-- C9 counterexample: the trace of `save_cache` on the default cache
path is a `makedirs` followed by a direct write of the target file; it is
not of the write-to-temp + rename shape the claim asserts, so a crash
mid-write can leave a truncated file. -/
theorem save_cache_not_atomic :
    ¬ IsAtomicReplace (save_cache_ops "/data/anycubic_proxy_cache.json" [])
        "/data/anycubic_proxy_cache.json" := by
  rintro ⟨pre, tmp, contents, hne, h⟩
  have hlen := congrArg List.length h
  simp only [save_cache_ops, List.length_append, List.length_cons, List.length_nil] at hlen
  have hpre : pre = [] := List.eq_nil_of_length_eq_zero (by omega)
  subst hpre
  simp [save_cache_ops] at h

/-- C9 (amended): every save of the cache snapshot performs
`os.makedirs(dirname(path), exist_ok=True)` and then writes the JSON
cache dump directly to the target path — an in-place overwrite with no
temporary file and no rename, so the save is not atomic. -/
theorem save_cache_in_place (cachePath : String) (c : Cache) :
    save_cache_ops cachePath c =
      [FsOp.makedirs (dirname cachePath), FsOp.writeFile cachePath (jsonDumps (cache_to_pyval c))] := rfl

/-! ## C4 — the job ETA is recomputed from the publish time -/

/-- Helper: under a registered printer object whose remaining-minutes
attribute is the integer `r`, the collected `eta_timestamp` equals
`now + r * 60`. -/
theorem eta_timestamp_of_eq (s : HAState) (now : Int) (key : String) (pobj : PrinterObj) (r : Int)
    (h1 : s.printer_objects_by_key.lookup key = some pobj)
    (h2 : pobj.latest_project_print_time_remaining_minutes = some (.int r)) :
    eta_timestamp_of s now key = some (.int (now + r * 60)) := by
  simp only [eta_timestamp_of, collect_printer_job_attrs, h1, h2, getattrD, Option.getD, pyInt]
  rfl

/-- C4: whenever `remainingMin` is present (as an integer `r`), the
derived `eta_timestamp` of the job attributes equals the publish time
`now` plus `r * 60` seconds, and any two publishes at the same `now`
with the same `r` — even from different registry states — yield the
identical `eta_timestamp`; the value is a function of the call-time
clock, never a stored ETA. -/
theorem eta_timestamp_fresh (s s2 : HAState) (now : Int) (key : String)
    (pobj pobj2 : PrinterObj) (r : Int)
    (h1 : s.printer_objects_by_key.lookup key = some pobj)
    (h2 : pobj.latest_project_print_time_remaining_minutes = some (.int r))
    (h3 : s2.printer_objects_by_key.lookup key = some pobj2)
    (h4 : pobj2.latest_project_print_time_remaining_minutes = some (.int r)) :
    eta_timestamp_of s now key = some (.int (now + r * 60))
    ∧ eta_timestamp_of s2 now key = eta_timestamp_of s now key := by
  have ha := eta_timestamp_of_eq s now key pobj r h1 h2
  have hb := eta_timestamp_of_eq s2 now key pobj2 r h3 h4
  exact ⟨ha, by rw [ha, hb]⟩

/-- A state whose only printer reports 42 remaining minutes. -/
def sampleJobState : HAState := ⟨"pre", [("k", sampleInfo)], [("k", samplePrinterObjJob)], []⟩

/-- C4 witness: at publish time 1000 with 42 remaining minutes the ETA is
1000 + 42·60 = 3520, twice. -/
theorem eta_timestamp_fresh_witness :
    eta_timestamp_of sampleJobState 1000 "k" = some (.int (1000 + 42 * 60))
    ∧ eta_timestamp_of sampleJobState 1000 "k" = eta_timestamp_of sampleJobState 1000 "k" :=
  eta_timestamp_fresh sampleJobState sampleJobState 1000 "k"
    samplePrinterObjJob samplePrinterObjJob 42 rfl rfl rfl rfl

/-! ## C7 — the getInfo retry scheduler -/

/-- Helper: one scheduling round contributes one timer per occurrence of
the key among the registered printer objects. -/
theorem filter_schedule_round (objs : List (String × PrinterObj)) (d : Nat) (k : String) :
    (schedule_ace_getinfo_retry objs d).filter (fun t => t.printerKey == k)
      = List.replicate ((objs.map Prod.fst).count k) ⟨d, k⟩ := by
  induction objs with
  | nil => rfl
  | cons kp rest ih =>
    by_cases hp : kp.1 = k
    · subst hp
      simp [schedule_ace_getinfo_retry, List.count_cons, List.replicate_succ] at ih ⊢
      exact ih
    · have h1 : (kp.1 == k) = false := beq_eq_false_iff_ne.mpr hp
      simp [schedule_ace_getinfo_retry, List.count_cons, h1] at ih ⊢
      exact ih

/-- Helper: cancelling every scheduled one-shot timer before it fires
produces no probes. -/
theorem run_scheduled_all_cancelled (ts : List TimerSpec) :
    run_scheduled ts (List.replicate ts.length .cancelled) = [] := by
  induction ts with
  | nil => rfl
  | cons t rest ih =>
    simp only [run_scheduled, List.length_cons, List.replicate_succ, List.zip_cons_cons,
      List.map_cons, List.flatten_cons, timer_probes] at ih ⊢
    simpa using ih

/-- C7: once the "cloud subscriptions established" callback runs, a
device registered exactly once gets exactly two one-shot timers, at 8
and then 25 seconds; a fired timer sends exactly one getInfo probe for
its device (never more — non-repeating); and cancelling the whole batch
before any timer fires sends zero probes. -/
theorem retry_scheduler_two_probes (objs : List (String × PrinterObj)) (k : String)
    (h : (objs.map Prod.fst).count k = 1) :
    (on_mqtt_subscribed objs).filter (fun t => t.printerKey == k) = [⟨8, k⟩, ⟨25, k⟩]
    ∧ run_scheduled (on_mqtt_subscribed objs)
        (List.replicate (on_mqtt_subscribed objs).length .cancelled) = []
    ∧ (∀ t o, (timer_probes t o).length ≤ 1)
    ∧ (∀ t, timer_probes t .fires = [⟨t.printerKey⟩]) := by
  refine ⟨?_, run_scheduled_all_cancelled _, ?_, fun t => rfl⟩
  · simp only [on_mqtt_subscribed, List.filter_append, filter_schedule_round, h]
    rfl
  · intro t o
    cases o <;> simp [timer_probes]

/-- C7 witness: one registered device, two timers, and zero probes after
a full cancel. -/
theorem retry_scheduler_two_probes_witness :
    (on_mqtt_subscribed [("k", samplePrinterObj)]).filter (fun t => t.printerKey == "k")
      = [⟨8, "k"⟩, ⟨25, "k"⟩]
    ∧ run_scheduled (on_mqtt_subscribed [("k", samplePrinterObj)])
        (List.replicate (on_mqtt_subscribed [("k", samplePrinterObj)]).length .cancelled) = [] :=
  ⟨(retry_scheduler_two_probes [("k", samplePrinterObj)] "k" rfl).1,
   (retry_scheduler_two_probes [("k", samplePrinterObj)] "k" rfl).2.1⟩

/-! ## C5 — structured publish with an unknown device key -/

/-- Helper: with a well-shaped structured-publish topic whose extracted
key is not in the registry, the callback produces exactly the
unknown-key error log. -/
theorem on_local_message_unknown_key (s : ProxyState) (topic : String) (msg : RawPayload)
    (idx : Nat) (pk : String)
    (h0 : strEndsWith topic "/raw" = false)
    (h1 : strContains topic "/to_cloud/publish/" = true)
    (h2 : (strSplitSlash topic).findIdx? (fun p => p == "publish") = some idx)
    (h3 : (strSplitSlash topic)[idx + 1]? = some pk)
    (h4 : s.printers_by_key.lookup pk = Option.none) :
    on_local_message s topic msg = [.logError "unknown printer key"] := by
  simp [on_local_message, on_local_message_core, h0, h1, h2, h3, h4]

/-- C5: a structured publish addressed to a device key absent from the
registry forwards nothing to the cloud channel (zero cloud publishes),
logs exactly one error, and the callback returns normally (the embedded
function is total — the failure is fatal only to this message). -/
theorem unknown_key_dropped (s : ProxyState) (topic : String) (msg : RawPayload)
    (idx : Nat) (pk : String)
    (h0 : strEndsWith topic "/raw" = false)
    (h1 : strContains topic "/to_cloud/publish/" = true)
    (h2 : (strSplitSlash topic).findIdx? (fun p => p == "publish") = some idx)
    (h3 : (strSplitSlash topic)[idx + 1]? = some pk)
    (h4 : s.printers_by_key.lookup pk = Option.none) :
    (on_local_message s topic msg).countP isCloudPublishB = 0
    ∧ (on_local_message s topic msg).countP isErrorLogB = 1 := by
  rw [on_local_message_unknown_key s topic msg idx pk h0 h1 h2 h3 h4]
  exact ⟨rfl, rfl⟩

/-- A bridge state with allow-list root `"a/b/"` and an empty registry. -/
def sampleEmptyRegState : ProxyState := ⟨"a/b/", [], true⟩

/-- C5 witness: a concrete structured publish to the unknown key `"zz"`. -/
theorem unknown_key_dropped_witness :
    (on_local_message sampleEmptyRegState "p/to_cloud/publish/zz/cmd" ⟨"5", some (.int 5)⟩).countP isCloudPublishB = 0
    ∧ (on_local_message sampleEmptyRegState "p/to_cloud/publish/zz/cmd" ⟨"5", some (.int 5)⟩).countP isErrorLogB = 1 :=
  unknown_key_dropped sampleEmptyRegState "p/to_cloud/publish/zz/cmd" ⟨"5", some (.int 5)⟩
    2 "zz" rfl rfl rfl rfl rfl

/-! ## C3 — raw passthrough filtering and payload encoding -/

/-- A raw-forward envelope whose payload is a JSON list. -/
def rawListEnvelope : RawPayload :=
  ⟨"", some (.dict [("topic", .str "a/b/c"), ("payload", .list [.str "x"])])⟩

/-- A bridge state with allow-list root `"a/b/"`, used by the raw
passthrough theorems. -/
def sampleBridgeStateAB : ProxyState := ⟨"a/b/", [], true⟩

/-- C3 counterexample: a JSON list is a structured value, but the code
JSON-encodes only dicts — the forwarded payload of a list is Python
`str()` output (`"[\x27x\x27]"`), which differs from its JSON encoding
(`"[\"x\"]"`), so "payload JSON-encoded when it is a structured value"
fails as stated. -/
theorem raw_list_payload_not_json_encoded :
    on_local_message sampleBridgeStateAB "x/to_cloud/raw" rawListEnvelope
      = [.logInfo "forward raw", .cloudPublish "a/b/c" "[\x27x\x27]"]
    ∧ jsonDumps (.list [.str "x"]) = "[\"x\"]"
    ∧ ("[\x27x\x27]" : String) ≠ "[\"x\"]" :=
  ⟨rfl, rfl, by decide⟩

/-- C3 (amended): a raw passthrough with a well-formed dict envelope is
checked by exact string-prefix match of the envelope topic against the
configured allow-list root; on mismatch it is dropped with one warning
and nothing is forwarded, and on match (cloud connected) it is forwarded
with the payload JSON-encoded when it is a dict and Python-stringified
otherwise (`bridge_encode`). -/
theorem raw_forward_allowlist (s : ProxyState) (topic : String) (msg : RawPayload)
    (kvs : List (String × PyVal))
    (h0 : strEndsWith topic "/raw" = true)
    (h1 : msg.parsed = some (.dict kvs)) :
    (strStartsWith (raw_cloud_topic kvs) s.allowedRoot = false →
      on_local_message s topic msg = [.logWarning "raw topic outside allowed root"])
    ∧ (strStartsWith (raw_cloud_topic kvs) s.allowedRoot = true → s.cloud_connected = true →
      on_local_message s topic msg
        = [.logInfo "forward raw",
           .cloudPublish (raw_cloud_topic kvs) (bridge_encode (dictGet kvs "payload"))]) := by
  constructor
  · intro h2
    simp [on_local_message, on_local_message_core, h0, h1, h2]
  · intro h2 h3
    simp [on_local_message, on_local_message_core, h0, h1, h2, h3]

/-- A raw-forward envelope whose payload is a JSON dict. -/
def rawDictEnvelope : RawPayload :=
  ⟨"", some (.dict [("topic", .str "a/b/c"), ("payload", .dict [("a", .int 1)])])⟩

/-- C3 witness: the matching envelope is forwarded with the dict payload
JSON-encoded. -/
theorem raw_forward_allowlist_witness :
    on_local_message sampleBridgeStateAB "x/to_cloud/raw" rawDictEnvelope
      = [.logInfo "forward raw",
         .cloudPublish (raw_cloud_topic [("topic", .str "a/b/c"), ("payload", .dict [("a", .int 1)])])
           (bridge_encode (dictGet [("topic", .str "a/b/c"), ("payload", .dict [("a", .int 1)])] "payload"))] :=
  (raw_forward_allowlist sampleBridgeStateAB "x/to_cloud/raw" rawDictEnvelope
    [("topic", .str "a/b/c"), ("payload", .dict [("a", .int 1)])] rfl rfl).2 rfl rfl

/-! ## C2 — the structured-publish topic is built from a hard-coded
prefix, not the configured allow-list prefix -/

/-- A bridge state whose configured allow-list root `"a/b/"` differs
from the hard-coded topic root. -/
def sampleStructState : ProxyState := ⟨"a/b/", [("k", sampleInfo)], true⟩

/-- C2 counterexample: with configured allow-list root `"a/b/"`, the
claim's topic `allowedRoot ++ machineType/key/endpoint = "a/b/m/k/e"`
starts with the configured root, so the claim predicts a forward; the
code instead builds the topic from the hard-coded
`"anycubic/anycubicCloud/v1/printer/public/"` root, fails its own
allow-list check and forwards nothing. -/
theorem structured_topic_ignores_config :
    on_local_message sampleStructState "p/to_cloud/publish/k/e" ⟨"5", some (.int 5)⟩
      = [.logWarning "endpoint outside allowed root"]
    ∧ strStartsWith ("a/b/" ++ pyStr sampleInfo.machine_type ++ "/" ++ sampleInfo.key ++ "/" ++ "e") "a/b/" = true
    ∧ (on_local_message sampleStructState "p/to_cloud/publish/k/e" ⟨"5", some (.int 5)⟩).countP isCloudPublishB = 0 :=
  ⟨rfl, rfl, rfl⟩

/-- C2 (amended): for a structured publish with a registered device key
and a connected cloud client, the forwarded topic equals
`"anycubic/anycubicCloud/v1/printer/public/" + machineType + "/" + key +
"/" + endpoint` (the hard-coded literal that coincides with the default
allow-list prefix, not the configured one); the allow-list check is then
applied to that full topic against the configured prefix, and the
message is forwarded exactly when the full topic starts with it. -/
theorem structured_forward_hardwired (s : ProxyState) (topic : String) (msg : RawPayload)
    (idx : Nat) (pk : String) (info : PrinterInfo)
    (h0 : strEndsWith topic "/raw" = false)
    (h1 : strContains topic "/to_cloud/publish/" = true)
    (h2 : (strSplitSlash topic).findIdx? (fun p => p == "publish") = some idx)
    (h3 : (strSplitSlash topic)[idx + 1]? = some pk)
    (h4 : s.printers_by_key.lookup pk = some info)
    (h5 : s.cloud_connected = true) :
    on_local_message s topic msg =
      if strStartsWith (structured_full_topic info (joinSlash ((strSplitSlash topic).drop (idx + 2)))) s.allowedRoot
      then [.logInfo "forward publish",
            .cloudPublish (structured_full_topic info (joinSlash ((strSplitSlash topic).drop (idx + 2))))
              (bridge_encode (structured_payload_obj msg))]
      else [.logWarning "endpoint outside allowed root"] := by
  by_cases hF : strStartsWith (structured_full_topic info (joinSlash ((strSplitSlash topic).drop (idx + 2)))) s.allowedRoot
  · simp [on_local_message, on_local_message_core, h0, h1, h2, h3, h4, h5, hF]
  · simp [on_local_message, on_local_message_core, h0, h1, h2, h3, h4, h5, hF]

/-- A bridge state whose configured allow-list root equals the hard-coded
topic root (the shipped default). -/
def sampleStructStateDefault : ProxyState :=
  ⟨"anycubic/anycubicCloud/v1/printer/public/", [("k", sampleInfo)], true⟩

/-- C2 witness: under the default configuration the structured publish is
forwarded on the reconstructed full topic. -/
theorem structured_forward_hardwired_witness :
    on_local_message sampleStructStateDefault "p/to_cloud/publish/k/e" ⟨"5", some (.int 5)⟩
      = [.logInfo "forward publish",
         .cloudPublish "anycubic/anycubicCloud/v1/printer/public/m/k/e" "5"] := by
  rw [structured_forward_hardwired sampleStructStateDefault "p/to_cloud/publish/k/e"
    ⟨"5", some (.int 5)⟩ 2 "k" sampleInfo rfl rfl rfl rfl rfl rfl]
  rfl

/-! ## C6 — discovery descriptor generation is deterministic -/

/-- C6: discovery generation is a function of the registry content and
the configured base topic alone — two runs over equal registries (with
no intervening change) produce identical effect lists, byte for byte;
and every descriptor's `unique_id` is derived only from the device key
and a fixed per-metric identifier (`discovery_unique_ids`). -/
theorem discovery_idempotent (s1 s2 : HAState)
    (hreg : s1.printers_by_key = s2.printers_by_key)
    (hroot : s1.localRoot = s2.localRoot) :
    publish_ha_discovery s1 = publish_ha_discovery s2
    ∧ ∀ kv ∈ s1.printers_by_key,
        (discovery_payloads s1.localRoot kv.1 kv.2).map (fun tp => payload_field tp.2 "unique_id")
          = (discovery_unique_ids kv.1 kv.2.key).map (fun u => some (.str u)) := by
  constructor
  · simp only [publish_ha_discovery, hreg, hroot]
  · intro kv _
    rfl

/-- Two states sharing a registry but differing in printer objects and
cache contents. -/
def sampleDiscoveryStateA : HAState := ⟨"pre", [("k", sampleInfo)], [("k", samplePrinterObjJob)], []⟩

/-- The second such state. -/
def sampleDiscoveryStateB : HAState := ⟨"pre", [("k", sampleInfo)], [], [("k", .int 5)]⟩

/-- C6 witness: the two runs coincide on a concrete registry. -/
theorem discovery_idempotent_witness :
    publish_ha_discovery sampleDiscoveryStateA = publish_ha_discovery sampleDiscoveryStateB :=
  (discovery_idempotent sampleDiscoveryStateA sampleDiscoveryStateB rfl rfl).1

/-! ## C1 — the accessory (Ace) publish gate of `update_from_cloud` -/

/-- True on effects the suppressed Ace path must not produce: a publish
on an Ace state or attrs topic, or the cache save. -/
def touchesAce : HAEffect → Bool
  | .pub (.aceState _ _) _ => true
  | .pub (.aceAttrs _ _) _ => true
  | .saveCacheMark => true
  | _ => false

/-- Helper: printer-status publishes never touch Ace topics or the cache. -/
theorem status_effects_not_ace (s : HAState) (k : String) :
    ∀ e ∈ publish_printer_status s k, touchesAce e = false := by
  intro e he
  simp only [publish_printer_status] at he
  split at he <;> simp_all [touchesAce]

/-- Helper: online publishes never touch Ace topics or the cache. -/
theorem online_effects_not_ace (s : HAState) (k : String) :
    ∀ e ∈ publish_printer_online s k, touchesAce e = false := by
  intro e he
  simp only [publish_printer_online, List.mem_singleton] at he
  subst he
  rfl

/-- Helper: job-sensor publishes never touch Ace topics or the cache. -/
theorem job_effects_not_ace (s : HAState) (now : Int) (k : String) :
    ∀ e ∈ publish_job_sensors s now k, touchesAce e = false := by
  intro e he
  simp only [publish_job_sensors, List.mem_map] at he
  obtain ⟨sv, hsv, rfl⟩ := he
  rfl

/-- Helper: the all-device status cycle never touches Ace state. -/
theorem all_status_not_ace (s : HAState) :
    ∀ e ∈ publish_all_printer_status s, touchesAce e = false := by
  intro e he
  simp only [publish_all_printer_status, List.mem_flatten, List.mem_map] at he
  obtain ⟨l, ⟨k, hk, rfl⟩, hel⟩ := he
  exact status_effects_not_ace s k e hel

/-- Helper: the all-device online cycle never touches Ace state. -/
theorem all_online_not_ace (s : HAState) :
    ∀ e ∈ publish_all_printer_online s, touchesAce e = false := by
  intro e he
  simp only [publish_all_printer_online, List.mem_flatten, List.mem_map] at he
  obtain ⟨l, ⟨k, hk, rfl⟩, hel⟩ := he
  exact online_effects_not_ace s k e hel

/-- Helper: the all-device job cycle never touches Ace state. -/
theorem all_job_not_ace (s : HAState) (now : Int) :
    ∀ e ∈ publish_all_job_sensors s now, touchesAce e = false := by
  intro e he
  simp only [publish_all_job_sensors, List.mem_flatten, List.mem_map] at he
  obtain ⟨l, ⟨k, hk, rfl⟩, hel⟩ := he
  exact job_effects_not_ace s now k e hel

/-- C1: for every cloud notification, the accessory publish path (ending
in the `save_cache` write) runs iff NOT (`msg_type = "multiColorBox"` and
`action ≠ "getInfo"`); when suppressed, the in-memory cache is unchanged
and no effect publishes an `AccessorySlot` state or attrs topic of any
slot of any device, and no cache write occurs. -/
theorem ace_publish_gate (s : HAState) (now : Int) (mt act ep : Option String) :
    ((HAEffect.saveCacheMark ∈ (update_from_cloud s now mt act ep).2) ↔
      ¬ (mt = some "multiColorBox" ∧ act ≠ some "getInfo"))
    ∧ ((mt = some "multiColorBox" ∧ act ≠ some "getInfo") →
        (update_from_cloud s now mt act ep).1.cache = s.cache
        ∧ ∀ e ∈ (update_from_cloud s now mt act ep).2, touchesAce e = false) := by
  by_cases h : mt = some "multiColorBox" ∧ act ≠ some "getInfo"
  · have heff : ∀ e ∈ (update_from_cloud s now mt act ep).2, touchesAce e = false := by
      intro e he
      simp only [update_from_cloud, if_pos h] at he
      rcases List.mem_append.mp he with he1 | he4
      · rcases List.mem_append.mp he1 with he2 | he3
        · rcases List.mem_append.mp he2 with ha | hb
          · exact all_status_not_ace _ e ha
          · exact all_online_not_ace _ e hb
        · by_cases hj : mt = some "print" ∧ (ep = Option.none ∨ ep = some "report")
          · rw [if_pos hj] at he3
            exact all_job_not_ace _ now e he3
          · rw [if_neg hj] at he3
            cases he3
      · have hskip : e = HAEffect.logDebugSkipAce := List.mem_singleton.mp he4
        subst hskip
        rfl
    refine ⟨⟨fun hmem => ?_, fun hn => absurd h hn⟩, fun _ => ⟨?_, heff⟩⟩
    · have := heff _ hmem
      simp [touchesAce] at this
    · simp only [update_from_cloud, if_pos h]
      rfl
  · refine ⟨⟨fun _ => h, fun _ => ?_⟩, fun hcontra => absurd hcontra h⟩
    simp only [update_from_cloud, if_neg h, publish_all_ace]
    simp [List.mem_append]

/-- A one-device state for the gate witness. -/
def sampleAceState : HAState := ⟨"pre", [("k", sampleInfo)], [("k", samplePrinterObj)], []⟩

/-- C1 witness: a partial `multiColorBox` frame (`action = "setSlot"`)
leaves the cache untouched. -/
theorem ace_publish_gate_witness :
    (update_from_cloud sampleAceState 0 (some "multiColorBox") (some "setSlot") Option.none).1.cache
      = sampleAceState.cache :=
  ((ace_publish_gate sampleAceState 0 (some "multiColorBox") (some "setSlot") Option.none).2
    ⟨rfl, by decide⟩).1

/-! ## C8 — publishing explicit empty representations -/

/-- True on Ace attrs-topic publishes. -/
def isAceAttrsPubB : HAEffect → Bool
  | .pub (.aceAttrs _ _) _ => true
  | _ => false

/-- True on Ace state-topic publishes. -/
def isAceStatePubB : HAEffect → Bool
  | .pub (.aceState _ _) _ => true
  | _ => false

/-- The 11 job value ids in `_collect_job_values` insertion order. -/
def job_value_ids : List String :=
  ["progress", "elapsed_min", "remaining_min", "total_layers", "current_layer",
   "speed_mode", "speed_pct", "z_thick", "status", "preview_url", "eta"]

/-- C8 counterexample: an Ace publish cycle over a device with no
accessory publishes both slot state topics (`"inactive"`) but publishes
neither attrs topic — the attrs topics are covered by the cycle yet left
unpublished, contradicting "no sensor topic is ever left unpublished
within a cycle that covers it". -/
theorem ace_attrs_topic_skipped :
    (publish_all_ace sampleAceState).2.countP isAceAttrsPubB = 0
    ∧ (publish_all_ace sampleAceState).2.countP isAceStatePubB = 2 := ⟨rfl, rfl⟩

/-- C8 (amended): when the device has a printer object, every job cycle
publishes all 11 job topics, with `""` as the explicit empty
representation of an absent value; the Ace state topic is always
published (with the explicit default `"inactive"`); but the Ace attrs
topic is skipped — not published — whenever slot attributes are
unavailable (`_collect_ace_attrs` returns `None`). -/
theorem empty_value_publishing (s : HAState) (now : Int) (key : String) (pobj : PrinterObj) (idx : Nat)
    (h : s.printer_objects_by_key.lookup key = some pobj) :
    (collect_job_values s now key).map Prod.fst = job_value_ids
    ∧ (∀ sv ∈ collect_job_values s now key, sv.2 = PyVal.none →
        HAEffect.pub (.job key sv.1) "" ∈ publish_job_sensors s now key)
    ∧ HAEffect.pub (.aceState key (idx + 1)) (ace_state_of s key idx)
        ∈ (publish_ace_state_and_attrs s key idx).2
    ∧ (collect_ace_attrs s key idx = Option.none →
        (publish_ace_state_and_attrs s key idx).2.countP isAceAttrsPubB = 0) := by
  refine ⟨?_, ?_, ?_, ?_⟩
  · simp only [collect_job_values, h]
    rfl
  · intro sv hsv h2
    refine List.mem_map.mpr ⟨sv, hsv, ?_⟩
    rw [h2]
    rfl
  · simp only [publish_ace_state_and_attrs]
    split <;> simp
  · intro ha
    simp only [publish_ace_state_and_attrs, ha]
    split <;> rfl

/-- C8 witness: the job cycle of the sample device covers all 11 ids. -/
theorem empty_value_publishing_witness :
    (collect_job_values sampleAceState 0 "k").map Prod.fst = job_value_ids :=
  (empty_value_publishing sampleAceState 0 "k" samplePrinterObj 0 rfl).1

/-! ## C10 — the ace cache record invariant and cache replay -/

/-- The shapes of an existing per-device cache value on which the
`setdefault`/assignment chain of `_publish_ace_state_and_attrs` succeeds:
no entry, or a dict whose `"ace"` entry (if any) is a dict. -/
def write_ok : Option PyVal → Bool
  | Option.none => true
  | some (.dict dk) =>
    match dk.lookup "ace" with
    | Option.none => true
    | some (.dict _) => true
    | some _ => false
  | some _ => false

/-- `cache[key]["ace"][str(idx)]` as a partial read. -/
def lookup_ace (c : Cache) (key : String) (idx : Nat) : Option PyVal :=
  match c.lookup key with
  | some (.dict dk) =>
    match dk.lookup "ace" with
    | some (.dict ak) => ak.lookup (toString idx)
    | _ => Option.none
  | _ => Option.none

/-- Helper: the `any`-based membership test of `dictSet` agrees with
`lookup`. -/
theorem any_key_eq_lookup_isSome (l : List (String × PyVal)) (k : String) :
    l.any (fun p => p.1 == k) = (l.lookup k).isSome := by
  induction l with
  | nil => rfl
  | cons p rest ih =>
    obtain ⟨a, b⟩ := p
    by_cases hp : a = k
    · subst hp
      simp [List.lookup]
    · have h1 : (a == k) = false := beq_eq_false_iff_ne.mpr hp
      have h2 : (k == a) = false := beq_eq_false_iff_ne.mpr (Ne.symm hp)
      simp [List.lookup, h1, h2, ih]

/-- Helper: appending a fresh binding makes it found. -/
theorem lookup_append_single (l : List (String × PyVal)) (k : String) (v : PyVal)
    (h : l.lookup k = Option.none) : (l ++ [(k, v)]).lookup k = some v := by
  induction l with
  | nil => simp [List.lookup]
  | cons p rest ih =>
    obtain ⟨a, b⟩ := p
    by_cases hk : k = a
    · subst hk
      simp [List.lookup] at h
    · have h2 : (k == a) = false := beq_eq_false_iff_ne.mpr hk
      simp only [List.lookup, h2] at h
      simp only [List.cons_append, List.lookup, h2]
      exact ih h

/-- Helper: replacing an existing binding in place makes it found. -/
theorem lookup_map_replace (l : List (String × PyVal)) (k : String) (v : PyVal)
    (h : l.any (fun p => p.1 == k) = true) :
    (l.map (fun p => if p.1 = k then (k, v) else p)).lookup k = some v := by
  induction l with
  | nil => simp at h
  | cons p rest ih =>
    obtain ⟨a, b⟩ := p
    by_cases ha : a = k
    · subst ha
      rw [List.map_cons, if_pos (show (a, b).1 = a from rfl)]
      simp [List.lookup]
    · have h1 : (a == k) = false := beq_eq_false_iff_ne.mpr ha
      have h2 : (k == a) = false := beq_eq_false_iff_ne.mpr (Ne.symm ha)
      simp only [List.any_cons, h1, Bool.false_or] at h
      rw [List.map_cons, if_neg ha]
      simp only [List.lookup, h2]
      exact ih h

/-- Helper: a `dictSet` binding is always found afterwards. -/
theorem lookup_dictSet_self (l : List (String × PyVal)) (k : String) (v : PyVal) :
    (dictSet l k v).lookup k = some v := by
  unfold dictSet
  cases hany : l.any (fun p => p.1 == k) with
  | true =>
    simp only [hany, if_true]
    exact lookup_map_replace l k v hany
  | false =>
    have hnone : l.lookup k = Option.none := by
      cases hl : l.lookup k with
      | none => rfl
      | some w =>
        have hiso := any_key_eq_lookup_isSome l k
        rw [hany, hl] at hiso
        simp at hiso
    simp only [hany, Bool.false_eq_true, if_false]
    exact lookup_append_single l k v hnone

/-- Helper: on a `write_ok` cache shape the cache mutation succeeds and
the written entry is found at `cache[key]["ace"][str(idx)]`. -/
theorem cache_update_ace_ok (c : Cache) (key : String) (idx : Nat) (entry : PyVal)
    (h : write_ok (c.lookup key) = true) :
    ∃ cc, cache_update_ace c key idx entry = .ok cc
      ∧ lookup_ace cc key idx = some entry := by
  cases hc : c.lookup key with
  | none =>
    have hany : c.any (fun p => p.1 == key) = false := by
      rw [any_key_eq_lookup_isSome, hc]
      rfl
    have hc1 : (c ++ [(key, PyVal.dict [])]).lookup key = some (.dict []) :=
      lookup_append_single c key (.dict []) hc
    refine ⟨dictSet (c ++ [(key, PyVal.dict [])]) key
        (.dict (dictSet [("ace", PyVal.dict [])] "ace"
          (.dict (dictSet [] (toString idx) entry)))), ?_, ?_⟩
    · simp only [cache_update_ace, hany, Bool.false_eq_true, if_false, hc1]
      rfl
    · simp only [lookup_ace, lookup_dictSet_self]
  | some devVal =>
    have hany : c.any (fun p => p.1 == key) = true := by
      rw [any_key_eq_lookup_isSome, hc]
      rfl
    cases devVal with
    | dict dk =>
      cases hdk : dk.lookup "ace" with
      | none =>
        have hany2 : dk.any (fun p => p.1 == "ace") = false := by
          rw [any_key_eq_lookup_isSome, hdk]
          rfl
        have hd1 : (dk ++ [("ace", PyVal.dict [])]).lookup "ace" = some (.dict []) :=
          lookup_append_single dk "ace" (.dict []) hdk
        refine ⟨dictSet c key
            (.dict (dictSet (dk ++ [("ace", PyVal.dict [])]) "ace"
              (.dict (dictSet [] (toString idx) entry)))), ?_, ?_⟩
        · simp only [cache_update_ace, hany, if_true, hc, hany2, Bool.false_eq_true, if_false, hd1]
          try rfl
        · simp only [lookup_ace, lookup_dictSet_self]
      | some aceVal =>
        cases aceVal with
        | dict ak =>
          have hany2 : dk.any (fun p => p.1 == "ace") = true := by
            rw [any_key_eq_lookup_isSome, hdk]
            rfl
          refine ⟨dictSet c key
              (.dict (dictSet dk "ace" (.dict (dictSet ak (toString idx) entry)))), ?_, ?_⟩
          · simp only [cache_update_ace, hany, if_true, hc, hany2, hdk]
            try rfl
          · simp only [lookup_ace, lookup_dictSet_self]
        | none => rw [hc] at h; simp [write_ok, hdk] at h
        | bool b => rw [hc] at h; simp [write_ok, hdk] at h
        | int n => rw [hc] at h; simp [write_ok, hdk] at h
        | str t => rw [hc] at h; simp [write_ok, hdk] at h
        | list xs => rw [hc] at h; simp [write_ok, hdk] at h
    | none => rw [hc] at h; simp [write_ok] at h
    | bool b => rw [hc] at h; simp [write_ok] at h
    | int n => rw [hc] at h; simp [write_ok] at h
    | str t => rw [hc] at h; simp [write_ok] at h
    | list xs => rw [hc] at h; simp [write_ok] at h

/-- Helper: collected ace attrs, when present, are a dict. -/
theorem collect_ace_attrs_shape (s : HAState) (key : String) (idx : Nat) :
    ∀ a, collect_ace_attrs s key idx = some a → ∃ kvs, a = .dict kvs := by
  intro a h
  unfold collect_ace_attrs at h
  split at h
  · cases h
  · split at h
    · cases h
    · split at h
      · cases h
      · exact ⟨_, (Option.some.inj h).symm⟩

/-- Helper: the written cache record is `{"state": state, "attrs": obj}`
with `attrs` always a dict (`attrs or {}` coerces `None` and `{}` alike
to `{}`), never null. -/
theorem ace_cache_entry_is_record (state : String) (attrs : Option PyVal)
    (hshape : ∀ a, attrs = some a → ∃ kvs, a = .dict kvs) :
    ∃ akvs, ace_cache_entry state attrs
      = .dict [("state", .str state), ("attrs", .dict akvs)] := by
  cases attrs with
  | none => exact ⟨[], rfl⟩
  | some a =>
    obtain ⟨kvs, rfl⟩ := hshape a rfl
    by_cases ht : pyTruthy (.dict kvs) = true
    · exact ⟨kvs, by simp [ace_cache_entry, ht]⟩
    · exact ⟨[], by simp [ace_cache_entry, ht]⟩

/-- Helper: replaying a slot whose record has a string state and a dict
attrs publishes the state topic and then the attrs topic. -/
theorem replay_slot_ok (ak : List (String × PyVal)) (key : String) (idx : Nat)
    (ekvs akvs : List (String × PyVal)) (st : String)
    (h7 : ak.lookup (toString idx) = some (.dict ekvs))
    (h8 : ekvs.lookup "state" = some (.str st))
    (h9 : ekvs.lookup "attrs" = some (.dict akvs)) :
    replay_slot (.dict ak) key idx = .ok
      [HAEffect.pub (.aceState key (idx + 1)) st,
       HAEffect.pub (.aceAttrs key (idx + 1)) (jsonDumps (.dict akvs))] := by
  simp [replay_slot, pyContains, h7, pyIndex, pyGetD, h8, pyGet, dictGet, h9, mqttPayloadOf]

/-- Helper: the replay of one device with a dict cache record reduces to
its two slot replays. -/
theorem replay_device_eq (c : Cache) (key : String) (dk ak : List (String × PyVal))
    (h5 : c.lookup key = some (.dict dk))
    (h6 : dk.lookup "ace" = some (.dict ak))
    (hak : ak ≠ []) :
    replay_device c key =
      (match replay_slot (.dict ak) key 0 with
       | .error e0 => .error e0
       | .ok e0 =>
         match replay_slot (.dict ak) key 1 with
         | .error e1 => .error (e0 ++ e1)
         | .ok e1 => .ok (e0 ++ e1)) := by
  have hdkE : dk.isEmpty = false := by
    cases dk with
    | nil => simp [List.lookup] at h6
    | cons a l => rfl
  have hakE : ak.isEmpty = false := by
    cases ak with
    | nil => exact absurd rfl hak
    | cons a l => rfl
  simp [replay_device, h5, pyTruthy, hdkE, hakE, pyGet, dictGet, h6]

/-- Helper: effects already accumulated survive the replay loop. -/
theorem mem_replay_go_acc (c : Cache) (ks : List String) (acc : List HAEffect) (x : HAEffect)
    (hx : x ∈ acc) : x ∈ replay_go c ks acc := by
  induction ks generalizing acc with
  | nil => simpa [replay_go] using hx
  | cons k rest ih =>
    cases hd : replay_device c k with
    | ok e =>
      simp only [replay_go, hd]
      exact ih (acc ++ e) (List.mem_append_left _ hx)
    | error e =>
      simp only [replay_go, hd]
      exact List.mem_append_left _ (List.mem_append_left _ hx)

/-- Helper: when every listed device replays without an exception, each
device's replay effects appear in the loop's output. -/
theorem mem_replay_go (c : Cache) (ks : List String) (acc : List HAEffect)
    (key : String) (e : List HAEffect) (x : HAEffect)
    (hall : ∀ k2 ∈ ks, ∃ e2, replay_device c k2 = .ok e2)
    (hk : key ∈ ks) (he : replay_device c key = .ok e) (hx : x ∈ e) :
    x ∈ replay_go c ks acc := by
  induction ks generalizing acc with
  | nil => cases hk
  | cons k0 rest ih =>
    obtain ⟨e0, he0⟩ := hall k0 (List.mem_cons_self k0 rest)
    rcases List.mem_cons.mp hk with hkeq | hkrest
    · subst hkeq
      rw [he0] at he
      injection he with hee
      subst hee
      simp only [replay_go, he0]
      exact mem_replay_go_acc c rest (acc ++ e0) x (List.mem_append_right _ hx)
    · simp only [replay_go, he0]
      exact ih (acc ++ e0) (fun k2 hk2 => hall k2 (List.mem_cons_of_mem _ hk2)) hkrest

/-- C10 (amended): (1) after an accessory publish for a (deviceKey,
slot) pair whose pre-existing cache value is well-shaped (`write_ok` —
in particular absent, or written by an earlier publish), the in-memory
cache entry for that pair is a record `{"state": <state string>,
"attrs": <object>}` whose attrs field is a JSON object — a missing
attrs value is coerced to `{}`, never stored as null; (2) consequently,
whenever every registered device's cached record is replayable without
an exception, `publish_ace_from_cache` republishes both the state topic
and the attrs topic for every slot (0 or 1) of a known device whose
cached record has a string state and an object attrs — in particular
for every record the publisher itself wrote. -/
theorem ace_cache_record_invariant :
    (∀ (s : HAState) (key : String) (idx : Nat),
      write_ok (s.cache.lookup key) = true →
      ∃ akvs, lookup_ace (publish_ace_state_and_attrs s key idx).1.cache key idx
        = some (.dict [("state", .str (ace_state_of s key idx)), ("attrs", .dict akvs)]))
    ∧ (∀ (s : HAState) (key : String) (idx : Nat)
        (dk ak ekvs akvs : List (String × PyVal)) (st : String),
      (∀ k2 ∈ s.printers_by_key.map Prod.fst, ∃ e2, replay_device s.cache k2 = .ok e2) →
      key ∈ s.printers_by_key.map Prod.fst →
      idx = 0 ∨ idx = 1 →
      s.cache.lookup key = some (.dict dk) →
      dk.lookup "ace" = some (.dict ak) →
      ak.lookup (toString idx) = some (.dict ekvs) →
      ekvs.lookup "state" = some (.str st) →
      ekvs.lookup "attrs" = some (.dict akvs) →
      HAEffect.pub (.aceState key (idx + 1)) st ∈ publish_ace_from_cache s
      ∧ HAEffect.pub (.aceAttrs key (idx + 1)) (jsonDumps (.dict akvs)) ∈ publish_ace_from_cache s) := by
  constructor
  · intro s key idx hW
    obtain ⟨akvs, hentry⟩ := ace_cache_entry_is_record (ace_state_of s key idx)
      (collect_ace_attrs s key idx) (collect_ace_attrs_shape s key idx)
    obtain ⟨cc, hok, hla⟩ := cache_update_ace_ok s.cache key idx
      (ace_cache_entry (ace_state_of s key idx) (collect_ace_attrs s key idx)) hW
    refine ⟨akvs, ?_⟩
    simp only [publish_ace_state_and_attrs, hok]
    rw [hla, hentry]
  · intro s key idx dk ak ekvs akvs st hall hk hidx h5 h6 h7 h8 h9
    have hak : ak ≠ [] := by
      intro ha
      subst ha
      simp [List.lookup] at h7
    have hdev := replay_device_eq s.cache key dk ak h5 h6 hak
    obtain ⟨edev, hedev⟩ := hall key hk
    rcases hidx with hi | hi
    · subst hi
      have hslot0 := replay_slot_ok ak key 0 ekvs akvs st h7 h8 h9
      simp only [hslot0] at hdev
      cases hs1 : replay_slot (.dict ak) key 1 with
      | error e1 =>
        simp only [hs1] at hdev
        rw [hdev] at hedev
        simp at hedev
      | ok e1 =>
        simp only [hs1] at hdev
        constructor
        · exact mem_replay_go s.cache _ [] key _ _ hall hk hdev (by simp)
        · exact mem_replay_go s.cache _ [] key _ _ hall hk hdev (by simp)
    · subst hi
      have hslot1 := replay_slot_ok ak key 1 ekvs akvs st h7 h8 h9
      simp only [hslot1] at hdev
      cases hs0 : replay_slot (.dict ak) key 0 with
      | error e0 =>
        simp only [hs0] at hdev
        rw [hdev] at hedev
        simp at hedev
      | ok e0 =>
        simp only [hs0] at hdev
        constructor
        · exact mem_replay_go s.cache _ [] key _ _ hall hk hdev (by simp)
        · exact mem_replay_go s.cache _ [] key _ _ hall hk hdev (by simp)

/-- A state whose loaded cache carries a slot record with a null attrs
value (legal JSON a cache file can contain). -/
def sampleNullAttrsCacheState : HAState :=
  ⟨"pre", [("k", sampleInfo)], [("k", samplePrinterObj)],
   [("k", .dict [("ace", .dict [("0", .dict [("state", .str "active"), ("attrs", PyVal.none)])])])]⟩

/-- C10 counterexample: slot 0 of device `"k"` is present in the cache,
yet `publish_ace_from_cache` publishes only its state topic — the attrs
topic is not republished because the cached attrs is null, refuting
"republishes both the state topic and the attrs topic for every slot
present in the cache" as stated. -/
theorem cached_null_attrs_not_republished :
    publish_ace_from_cache sampleNullAttrsCacheState
      = [HAEffect.pub (.aceState "k" 1) "active"]
    ∧ (publish_ace_from_cache sampleNullAttrsCacheState).countP isAceAttrsPubB = 0 := ⟨rfl, rfl⟩

/-- A state whose loaded cache carries a properly shaped slot record. -/
def sampleGoodCacheState : HAState :=
  ⟨"pre", [("k", sampleInfo)], [("k", samplePrinterObj)],
   [("k", .dict [("ace", .dict [("0", .dict [("state", .str "active"),
     ("attrs", .dict [("temperature", .int 25)])])])])]⟩

/-- C10 witness: the write invariant at a concrete state, and a concrete
well-shaped cached slot replayed on both topics. -/
theorem ace_cache_record_invariant_witness :
    (∃ akvs, lookup_ace (publish_ace_state_and_attrs sampleAceState "k" 0).1.cache "k" 0
      = some (.dict [("state", .str (ace_state_of sampleAceState "k" 0)), ("attrs", .dict akvs)]))
    ∧ HAEffect.pub (.aceState "k" 1) "active" ∈ publish_ace_from_cache sampleGoodCacheState
    ∧ HAEffect.pub (.aceAttrs "k" 1) (jsonDumps (.dict [("temperature", .int 25)]))
        ∈ publish_ace_from_cache sampleGoodCacheState := by
  have hrep := ace_cache_record_invariant.2 sampleGoodCacheState "k" 0
    [("ace", .dict [("0", .dict [("state", .str "active"), ("attrs", .dict [("temperature", .int 25)])])])]
    [("0", .dict [("state", .str "active"), ("attrs", .dict [("temperature", .int 25)])])]
    [("state", .str "active"), ("attrs", .dict [("temperature", .int 25)])]
    [("temperature", .int 25)] "active"
    (by
      rw [show sampleGoodCacheState.printers_by_key.map Prod.fst = ["k"] from rfl]
      intro k2 hk2
      rw [List.mem_singleton] at hk2
      subst hk2
      exact ⟨_, rfl⟩)
    (List.mem_singleton.mpr rfl) (Or.inl rfl) rfl rfl rfl rfl rfl
  exact ⟨ace_cache_record_invariant.1 sampleAceState "k" 0 rfl, hrep.1, hrep.2⟩

end AnycubicProxy
